import Mathlib

/-!
Verification of the open-notificaties Notification Routing Component (NRC).

The repository exposes HTTP viewsets (`src/nrc/api/viewsets.py`,
`src/notifications/api/viewsets.py`) for channels (Kanaal), subscriptions
(Abonnement) and notification publishing.  The routing core (filter matcher,
publish pipeline internals in `MessageSerializer`, the delivery dispatcher and
the queue adapter) is not present in the visible sources; those parts are
modelled from the specification, as marked in the doc comments below.
-/

namespace NRC

/-! ## Filter Matcher (spec section 4.1)

The matching implementation is not in the visible sources; all definitions in
this section are modelled from the spec. -/

/-- A Filter Group: a mapping from attribute-name to expected-value.  All keys
in a group must match for the group to match. -/
abbrev FilterGroup := List (String × String)

/-- Modelled from the spec: a Subscription (Abonnement) record, consisting of a
delivery endpoint and an ordered sequence of filter groups.  The Abonnement
model class itself is not among the visible sources. -/
structure Subscription where
  callbackUrl : String
  filterGroups : List FilterGroup
deriving Repr, DecidableEq

/-- Modelled from the spec: a Notification (Notificatie) as seen by the
matcher: channel reference, attribute mapping and opaque resource reference. -/
structure Notificatie where
  kanaal : String
  attributes : List (String × String)
  resourceUrl : String
deriving Repr, DecidableEq

/-- Modelled from the spec: a filter group matches iff for every
(key, expected-value) pair in the group the notification's attribute mapping
contains that key with an equal value (exact string equality). -/
def groupMatches (g : FilterGroup) (attrs : List (String × String)) : Bool :=
  g.all fun kv => attrs.lookup kv.1 == some kv.2

/-- Modelled from the spec: `matches(subscription, notification)`.  Zero filter
groups matches everything on the channel; otherwise the subscription matches
iff at least one group matches (groups are OR'd, keys within a group AND'd).
The Lean name carries an Fn suffix because the source's name is reserved. -/
def matchesFn (s : Subscription) (n : Notificatie) : Bool :=
  s.filterGroups.isEmpty || s.filterGroups.any fun g => groupMatches g n.attributes

/-- C1: for a subscription with at least one filter group, `matches` returns
true iff some filter group has all its (key, expected-value) pairs present in
the notification's attribute mapping with exactly equal values; missing keys
make a group fail to match, and attribute keys not mentioned by the group are
ignored. -/
theorem matches_spec (s : Subscription) (n : Notificatie) (h : s.filterGroups ≠ []) :
    matchesFn s n = true ↔
      ∃ g ∈ s.filterGroups, ∀ kv ∈ g, n.attributes.lookup kv.1 = some kv.2 := by
  have hne : s.filterGroups.isEmpty = false := by
    cases hs : s.filterGroups with
    | nil => exact absurd hs h
    | cons a l => rfl
  simp [matchesFn, hne, List.any_eq_true, groupMatches, List.all_eq_true]

/-- Witness for C1: the subscription with groups `[[a:1],[b:2]]` matched
against a notification carrying only `b:2` — OR semantics across groups. -/
theorem matches_spec_witness :
    (matchesFn ⟨"https://cb.example", [[("a", "1")], [("b", "2")]]⟩
        ⟨"zaken", [("b", "2")], "https://r.example"⟩ = true ↔
      ∃ g ∈ [[("a", "1")], [("b", "2")]],
        ∀ kv ∈ g, (([("b", "2")] : List (String × String)).lookup kv.1 = some kv.2)) :=
  matches_spec ⟨"https://cb.example", [[("a", "1")], [("b", "2")]]⟩
    ⟨"zaken", [("b", "2")], "https://r.example"⟩ (by decide)

/-- C5: a subscription whose filter-group list is empty matches every
notification on its channel. -/
theorem matches_empty_groups (s : Subscription) (n : Notificatie)
    (h : s.filterGroups = []) : matchesFn s n = true := by
  simp [matchesFn, h]

/-- Witness for C5 at a concrete subscription and notification. -/
theorem matches_empty_groups_witness :
    matchesFn ⟨"https://cb.example", []⟩ ⟨"zaken", [("a", "1")], "https://r.example"⟩ = true :=
  matches_empty_groups _ _ rfl

/-- C6: `matches` is deterministic — any two calls with identical inputs return
identical results.  Side-effect freedom holds by construction: the model is a
pure function of the subscription and notification, touching no state. -/
theorem matches_deterministic (s s' : Subscription) (n n' : Notificatie)
    (hs : s = s') (hn : n = n') : matchesFn s n = matchesFn s' n' := by
  rw [hs, hn]

/-- Witness for C6 at concrete equal inputs. -/
theorem matches_deterministic_witness :
    matchesFn ⟨"https://cb.example", [[("a", "1")]]⟩ ⟨"zaken", [("a", "1")], "r"⟩ =
      matchesFn ⟨"https://cb.example", [[("a", "1")]]⟩ ⟨"zaken", [("a", "1")], "r"⟩ :=
  matches_deterministic _ _ _ _ rfl rfl

/-! ## Publish Pipeline (spec section 4.3, interface section 6)

`NotificatieAPIView.post` in `src/nrc/api/viewsets.py` delegates validation and
persistence entirely to `MessageSerializer`, whose implementation is not among
the visible sources; the pipeline below is therefore modelled from the spec. -/

/-- Modelled from the spec: a Channel (Kanaal) record — unique name, the
declared filter attribute names (the schema of keys notifications on this
channel may carry) and an optional documentation URL.  The Kanaal model class
is not among the visible sources. -/
structure Kanaal where
  naam : String
  filters : List String
  documentatieLink : String
deriving Repr, DecidableEq

/-- Modelled from the spec: a persisted Notification record, carrying its
identifier, channel reference, attribute mapping and resource reference. -/
structure NotificatieRec where
  id : Nat
  kanaal : String
  attributes : List (String × String)
  resourceUrl : String
deriving Repr, DecidableEq

/-- Modelled from the spec's error taxonomy (section 7): publishing fails with
`NotFoundError` for an unknown channel or with a `ValidationError` listing the
attribute keys not declared on the channel's schema. -/
inductive PublishError where
  | unknownChannel : PublishError
  | undeclaredAttribute : List String → PublishError
deriving Repr, DecidableEq

/-- Modelled from the spec: the stored state the publish pipeline touches —
channel records, the append-only notification log, and the durable dispatch
queue of the Queue/Broker Adapter. -/
structure PublishState where
  kanalen : List Kanaal
  notificaties : List NotificatieRec
  dispatchQueue : List Nat
deriving Repr, DecidableEq

/-- Modelled from the spec: `publish(channel_id, attributes, resource_reference)`
— (1) resolve the channel, failing with `UnknownChannel` if absent; (2) check
every attribute key against the channel's declared schema, failing with
`UndeclaredAttribute` listing offending keys; (3) append the Notification
record; (4) enqueue a dispatch job referencing the notification id, atomically
with step 3.  The `MessageSerializer` performing this in the repository is not
among the visible sources. -/
def publish (st : PublishState) (channelId : String)
    (attrs : List (String × String)) (resourceUrl : String) :
    Except PublishError (Nat × PublishState) :=
  match st.kanalen.find? (fun k => k.naam == channelId) with
  | none => .error .unknownChannel
  | some ch =>
    let offending := (attrs.map Prod.fst).filter fun key => !(ch.filters.contains key)
    if offending.isEmpty then
      let nid := st.notificaties.length
      .ok (nid, { st with
        notificaties := st.notificaties ++ [⟨nid, channelId, attrs, resourceUrl⟩],
        dispatchQueue := st.dispatchQueue ++ [nid] })
    else
      .error (.undeclaredAttribute offending)

/-- Modelled from the spec: the HTTP publish endpoint's response — status code,
body (the stored document on success, the error otherwise) and resulting
stored state. -/
structure PublishResponse where
  status : Nat
  body : Except PublishError NotificatieRec
  state : PublishState
deriving Repr

/-- Modelled from the spec: the HTTP publish endpoint — 201 with the stored
document on success, 400 with field-level errors on schema violation, 404 if
the channel is unknown; the stored state is unchanged on error. -/
def publishHTTP (st : PublishState) (channelId : String)
    (attrs : List (String × String)) (resourceUrl : String) : PublishResponse :=
  match publish st channelId attrs resourceUrl with
  | .ok (nid, st') => ⟨201, .ok ⟨nid, channelId, attrs, resourceUrl⟩, st'⟩
  | .error .unknownChannel => ⟨404, .error .unknownChannel, st⟩
  | .error (.undeclaredAttribute ks) => ⟨400, .error (.undeclaredAttribute ks), st⟩

/-- C2: when the channel exists and every attribute key is declared on its
schema, publish succeeds — HTTP 201 with the stored document, the Notification
record is persisted, and a dispatch job referencing the notification id is on
the durable queue. -/
theorem publish_success (st : PublishState) (cid : String)
    (attrs : List (String × String)) (r : String) (ch : Kanaal)
    (hch : st.kanalen.find? (fun k => k.naam == cid) = some ch)
    (hattrs : ∀ key ∈ attrs.map Prod.fst, key ∈ ch.filters) :
    ∃ nid st',
      publish st cid attrs r = .ok (nid, st') ∧
      publishHTTP st cid attrs r = ⟨201, .ok ⟨nid, cid, attrs, r⟩, st'⟩ ∧
      (⟨nid, cid, attrs, r⟩ : NotificatieRec) ∈ st'.notificaties ∧
      nid ∈ st'.dispatchQueue := by
  have hfilter :
      ((attrs.map Prod.fst).filter fun key => !(ch.filters.contains key)) = [] := by
    refine List.filter_eq_nil_iff.mpr ?_
    intro a ha
    simp [hattrs a ha]
  have hpub : publish st cid attrs r = .ok (st.notificaties.length,
      { st with
        notificaties := st.notificaties ++
          [⟨st.notificaties.length, cid, attrs, r⟩],
        dispatchQueue := st.dispatchQueue ++ [st.notificaties.length] }) := by
    unfold publish
    rw [hch]
    simp only [hfilter]
    rfl
  refine ⟨st.notificaties.length, _, hpub, ?_, ?_, ?_⟩
  · simp [publishHTTP, hpub]
  · simp
  · simp

/-- Witness for C2: publishing `{a:1}` on channel `zaken` whose schema declares
keys `a` and `b`. -/
theorem publish_success_witness :
    ∃ nid st',
      publish ⟨[⟨"zaken", ["a", "b"], "d"⟩], [], []⟩ "zaken" [("a", "1")] "r" =
        .ok (nid, st') ∧
      publishHTTP ⟨[⟨"zaken", ["a", "b"], "d"⟩], [], []⟩ "zaken" [("a", "1")] "r" =
        ⟨201, .ok ⟨nid, "zaken", [("a", "1")], "r"⟩, st'⟩ ∧
      (⟨nid, "zaken", [("a", "1")], "r"⟩ : NotificatieRec) ∈ st'.notificaties ∧
      nid ∈ st'.dispatchQueue :=
  publish_success ⟨[⟨"zaken", ["a", "b"], "d"⟩], [], []⟩ "zaken" [("a", "1")] "r"
    ⟨"zaken", ["a", "b"], "d"⟩ (by decide) (by decide)

/-- C3: publishing with an attribute key not declared on the channel's schema
fails with a ValidationError listing the offending keys, the HTTP endpoint
returns 400, and the stored state is unchanged — no Notification record is
created. -/
theorem publish_undeclared (st : PublishState) (cid : String)
    (attrs : List (String × String)) (r : String) (ch : Kanaal)
    (hch : st.kanalen.find? (fun k => k.naam == cid) = some ch)
    (hbad : ((attrs.map Prod.fst).filter fun key => !(ch.filters.contains key)) ≠ []) :
    publish st cid attrs r =
      .error (.undeclaredAttribute
        ((attrs.map Prod.fst).filter fun key => !(ch.filters.contains key))) ∧
    (publishHTTP st cid attrs r).status = 400 ∧
    (publishHTTP st cid attrs r).state = st := by
  have hne :
      ((attrs.map Prod.fst).filter fun key => !(ch.filters.contains key)).isEmpty
        = false := by
    cases hb : (attrs.map Prod.fst).filter fun key => !(ch.filters.contains key) with
    | nil => exact absurd hb hbad
    | cons a l => rfl
  have hpub : publish st cid attrs r =
      .error (.undeclaredAttribute
        ((attrs.map Prod.fst).filter fun key => !(ch.filters.contains key))) := by
    unfold publish
    rw [hch]
    simp only [hne]
    rfl
  refine ⟨hpub, ?_, ?_⟩
  · simp [publishHTTP, hpub]
  · simp [publishHTTP, hpub]

/-- Witness for C3: publishing `{c:9}` on channel `zaken` whose schema declares
only keys `a` and `b`. -/
theorem publish_undeclared_witness :
    publish ⟨[⟨"zaken", ["a", "b"], "d"⟩], [], []⟩ "zaken" [("c", "9")] "r" =
      .error (.undeclaredAttribute
        (([("c", "9")].map Prod.fst).filter fun key =>
          !((["a", "b"] : List String).contains key))) ∧
    (publishHTTP ⟨[⟨"zaken", ["a", "b"], "d"⟩], [], []⟩ "zaken" [("c", "9")] "r").status
      = 400 ∧
    (publishHTTP ⟨[⟨"zaken", ["a", "b"], "d"⟩], [], []⟩ "zaken" [("c", "9")] "r").state
      = ⟨[⟨"zaken", ["a", "b"], "d"⟩], [], []⟩ :=
  publish_undeclared ⟨[⟨"zaken", ["a", "b"], "d"⟩], [], []⟩ "zaken" [("c", "9")] "r"
    ⟨"zaken", ["a", "b"], "d"⟩ (by decide) (by decide)

/-- C4: publishing to a channel id that resolves to no existing channel fails
with NotFoundError, reported by the HTTP endpoint as status 404 (distinct from
the 400 used for schema violations), leaving the state unchanged. -/
theorem publish_unknown_channel (st : PublishState) (cid : String)
    (attrs : List (String × String)) (r : String)
    (hch : st.kanalen.find? (fun k => k.naam == cid) = none) :
    publish st cid attrs r = .error .unknownChannel ∧
    publishHTTP st cid attrs r = ⟨404, .error .unknownChannel, st⟩ := by
  refine ⟨?_, ?_⟩
  · simp [publish, hch]
  · simp [publishHTTP, publish, hch]

/-- Witness for C4: publishing on channel `onbekend` against a store holding
only channel `zaken`. -/
theorem publish_unknown_channel_witness :
    publish ⟨[⟨"zaken", ["a"], "d"⟩], [], []⟩ "onbekend" [("a", "1")] "r" =
      .error .unknownChannel ∧
    publishHTTP ⟨[⟨"zaken", ["a"], "d"⟩], [], []⟩ "onbekend" [("a", "1")] "r" =
      ⟨404, .error .unknownChannel, ⟨[⟨"zaken", ["a"], "d"⟩], [], []⟩⟩ :=
  publish_unknown_channel ⟨[⟨"zaken", ["a"], "d"⟩], [], []⟩ "onbekend" [("a", "1")] "r"
    (by decide)

/-! ## Delivery Dispatcher and Subscription Index (spec sections 4.2, 4.4)

The dispatcher and the subscription index are not in the visible sources;
every definition in this section is modelled from the spec. -/

/-- Modelled from the spec: Delivery Attempt status values. -/
inductive AttemptStatus where
  | pending
  | inFlight
  | delivered
  | failedRetryable
  | failedTerminal
deriving Repr, DecidableEq

/-- Modelled from the spec: a Delivery Attempt keyed by the
(notification, subscription) pair. -/
structure DeliveryAttempt where
  notificationId : Nat
  subscriptionId : Nat
  status : AttemptStatus
deriving Repr, DecidableEq

/-- Modelled from the spec: the state the dispatcher and subscription index
operate on — the subscription records keyed by identifier, and the Delivery
Attempt records. -/
structure DispatchState where
  subscriptions : List (Nat × Subscription)
  attempts : List DeliveryAttempt
deriving Repr, DecidableEq

/-- Whether a Delivery Attempt already exists for the
(notification, subscription) pair. -/
def hasAttempt (st : DispatchState) (nid sid : Nat) : Bool :=
  st.attempts.any fun a => a.notificationId == nid && a.subscriptionId == sid

/-- Modelled from the spec: processing one dispatch job — compute the matched
subscriptions via the Filter Matcher and create one pending Delivery Attempt
per match; re-processing of a job (at-least-once queue semantics) does not
create a second attempt for a pair that already has one. -/
def dispatchNotification (st : DispatchState) (n : NotificatieRec) : DispatchState :=
  { st with attempts := st.attempts ++
      ((st.subscriptions.filter fun p =>
          matchesFn p.2 ⟨n.kanaal, n.attributes, n.resourceUrl⟩ &&
            !(hasAttempt st n.id p.1)).map
        fun p => ⟨n.id, p.1, .pending⟩) }

/-- Modelled from the spec: the subscription index's `update` mutator, keyed by
subscription identifier; it never touches Delivery Attempt records. -/
def updateSubscription (st : DispatchState) (sid : Nat) (s : Subscription) :
    DispatchState :=
  { st with subscriptions :=
      st.subscriptions.map fun p => if p.1 == sid then (sid, s) else p }

/-- Modelled from the spec: the subscription index's `remove` mutator —
deletion removes the subscription from future lookups but does not
retroactively cancel already-created Delivery Attempts. -/
def deleteSubscription (st : DispatchState) (sid : Nat) : DispatchState :=
  { st with subscriptions := st.subscriptions.filter fun p => p.1 != sid }

/-- An operation on the dispatch state: dispatching a notification job, or a
subscription edit (update or delete). -/
inductive DispatchOp where
  | dispatch : NotificatieRec → DispatchOp
  | update : Nat → Subscription → DispatchOp
  | del : Nat → DispatchOp
deriving Repr

def applyOp (st : DispatchState) : DispatchOp → DispatchState
  | .dispatch n => dispatchNotification st n
  | .update sid s => updateSubscription st sid s
  | .del sid => deleteSubscription st sid

/-- Whether an operation is a subscription edit (update or delete) rather than
a dispatch. -/
def isSubscriptionEdit : DispatchOp → Bool
  | .dispatch _ => false
  | .update _ _ => true
  | .del _ => true

/-- The (notification, subscription) keys of the recorded Delivery Attempts. -/
def attemptKeys (st : DispatchState) : List (Nat × Nat) :=
  st.attempts.map fun a => (a.notificationId, a.subscriptionId)

/-- Well-formedness: at most one Delivery Attempt per
(notification, subscription) pair, and distinct subscription identifiers. -/
def WellFormed (st : DispatchState) : Prop :=
  (attemptKeys st).Nodup ∧ (st.subscriptions.map Prod.fst).Nodup

theorem hasAttempt_eq_false_iff (st : DispatchState) (nid sid : Nat) :
    hasAttempt st nid sid = false ↔ (nid, sid) ∉ attemptKeys st := by
  simp [hasAttempt, attemptKeys, List.any_eq_false, List.mem_map, Prod.ext_iff]

theorem updateSubscription_fst (st : DispatchState) (sid : Nat) (s : Subscription) :
    (updateSubscription st sid s).subscriptions.map Prod.fst =
      st.subscriptions.map Prod.fst := by
  unfold updateSubscription
  rw [List.map_map]
  refine List.map_congr_left ?_
  intro p _
  by_cases h : p.1 = sid
  · simp [Function.comp, h]
  · simp [Function.comp, h]

theorem wellFormed_applyOp (st : DispatchState) (op : DispatchOp)
    (h : WellFormed st) : WellFormed (applyOp st op) := by
  obtain ⟨hA, hS⟩ := h
  cases op with
  | dispatch n =>
    refine ⟨?_, hS⟩
    show (attemptKeys (dispatchNotification st n)).Nodup
    have hkeys : attemptKeys (dispatchNotification st n) =
        attemptKeys st ++
          ((st.subscriptions.filter fun p =>
              matchesFn p.2 ⟨n.kanaal, n.attributes, n.resourceUrl⟩ &&
                !(hasAttempt st n.id p.1)).map Prod.fst).map
            (fun sid => (n.id, sid)) := by
      simp [attemptKeys, dispatchNotification, List.map_map, Function.comp]
    rw [hkeys]
    refine List.Nodup.append hA ?_ ?_
    · refine List.Nodup.map (fun a b hab => ?_) ?_
      · exact congrArg Prod.snd hab
      · exact hS.sublist ((List.filter_sublist _).map Prod.fst)
    · intro k hk hk2
      rcases List.mem_map.mp hk2 with ⟨sid, hsid, rfl⟩
      rcases List.mem_map.mp hsid with ⟨p, hp, rfl⟩
      have hcond := (List.mem_filter.mp hp).2
      have hfalse : hasAttempt st n.id p.1 = false := by
        simp only [Bool.and_eq_true, Bool.not_eq_true'] at hcond
        exact hcond.2
      exact (hasAttempt_eq_false_iff st n.id p.1).mp hfalse hk
  | update sid s =>
    exact ⟨hA, updateSubscription_fst st sid s ▸ hS⟩
  | del sid =>
    exact ⟨hA, hS.sublist ((List.filter_sublist _).map Prod.fst)⟩

theorem applyOp_edit_attempts (st : DispatchState) (op : DispatchOp)
    (h : isSubscriptionEdit op = true) : (applyOp st op).attempts = st.attempts := by
  cases op with
  | dispatch n => exact absurd h (by simp [isSubscriptionEdit])
  | update sid s => rfl
  | del sid => rfl

/-- C7: over every sequence of dispatch-state operations starting from a
well-formed state, at most one Delivery Attempt exists per
(notification, subscription) pair; and a sequence consisting only of
subscription edits (updates and deletions) leaves the Delivery Attempt
records exactly as they were — edits and deletions never retroactively modify
or cancel an already-created attempt. -/
theorem deliveryAttempt_at_most_once (st : DispatchState) (ops : List DispatchOp)
    (h : WellFormed st) :
    WellFormed (ops.foldl applyOp st) ∧
    ((∀ op ∈ ops, isSubscriptionEdit op = true) →
      (ops.foldl applyOp st).attempts = st.attempts) := by
  induction ops generalizing st with
  | nil => exact ⟨h, fun _ => rfl⟩
  | cons op ops ih =>
    obtain ⟨ha, hb⟩ := ih (applyOp st op) (wellFormed_applyOp st op h)
    refine ⟨ha, fun hall => ?_⟩
    have hrest := hb fun o ho => hall o (List.mem_cons_of_mem _ ho)
    calc ((op :: ops).foldl applyOp st).attempts
        = (ops.foldl applyOp (applyOp st op)).attempts := by rw [List.foldl_cons]
      _ = (applyOp st op).attempts := hrest
      _ = st.attempts := applyOp_edit_attempts st op (hall op (List.mem_cons_self _ _))

/-- Witness for C7: one subscription, one recorded attempt, followed by an
update and a deletion of the subscription. -/
theorem deliveryAttempt_at_most_once_witness :
    WellFormed (([.update 1 ⟨"cb2", []⟩, .del 1] : List DispatchOp).foldl applyOp
      ⟨[(1, ⟨"cb", []⟩)], [⟨0, 1, .pending⟩]⟩) ∧
    ((∀ op ∈ ([.update 1 ⟨"cb2", []⟩, .del 1] : List DispatchOp),
        isSubscriptionEdit op = true) →
      (([.update 1 ⟨"cb2", []⟩, .del 1] : List DispatchOp).foldl applyOp
          ⟨[(1, ⟨"cb", []⟩)], [⟨0, 1, .pending⟩]⟩).attempts =
        [⟨0, 1, .pending⟩]) :=
  deliveryAttempt_at_most_once ⟨[(1, ⟨"cb", []⟩)], [⟨0, 1, .pending⟩]⟩
    [.update 1 ⟨"cb2", []⟩, .del 1] ⟨by decide, by decide⟩

/-- Modelled from the spec: success means any 2xx response. -/
def isSuccessCode (code : Nat) : Bool := 200 ≤ code && code < 300

/-- Modelled from the spec: retryable failures are timeouts, 5xx and
connection errors (status 0 stands for a network failure or timeout), plus
429; everything else failing is terminal (4xx client errors other than 429). -/
def isRetryableCode (code : Nat) : Bool :=
  code == 0 || code == 429 || (500 ≤ code && code < 600)

/-- Modelled from the spec: delivery of one attempt with retries — the
endpoint behavior maps the attempt number to a response code; a success ends
in `delivered`, retryable failures are retried until the remaining attempt
budget is exhausted (then `failedTerminal`), terminal failures end in
`failedTerminal` immediately. -/
def deliverFrom (behavior : Nat → Nat) (attemptNum : Nat) : Nat → AttemptStatus
  | 0 => .failedTerminal
  | fuel + 1 =>
    if isSuccessCode (behavior attemptNum) then .delivered
    else if isRetryableCode (behavior attemptNum) then
      deliverFrom behavior (attemptNum + 1) fuel
    else .failedTerminal

/-- Modelled from the spec: the terminal outcome of one Delivery Attempt under
a retry cap. -/
def deliverOutcome (behavior : Nat → Nat) (cap : Nat) : AttemptStatus :=
  deliverFrom behavior 0 cap

/-- Modelled from the spec: the dispatcher delivers one notification to each
matched subscription independently; `env` gives each subscription's endpoint
behavior, and the result records each subscription's terminal outcome. -/
def dispatchOutcomes (env : Nat → Nat → Nat) (cap : Nat) (subs : List Nat) :
    List (Nat × AttemptStatus) :=
  subs.map fun sid => (sid, deliverOutcome (env sid) cap)

/-- C8: failure isolation — the terminal outcome recorded for a subscription's
Delivery Attempt depends only on that subscription's own endpoint behavior:
for any two endpoint-behavior environments that agree on subscription `sid`
(and may differ arbitrarily on every other subscription, e.g. one always
returning 500), the outcome recorded for `sid` is identical. -/
theorem delivery_isolation (env1 env2 : Nat → Nat → Nat) (cap : Nat)
    (subs : List Nat) (sid : Nat) (h : env1 sid = env2 sid) :
    (dispatchOutcomes env1 cap subs).lookup sid =
      (dispatchOutcomes env2 cap subs).lookup sid := by
  induction subs with
  | nil => rfl
  | cons a l ih =>
    by_cases ha : a = sid
    · subst ha
      simp [dispatchOutcomes, List.lookup, h]
    · have hne : (sid == a) = false := beq_eq_false_iff_ne.mpr fun hh => ha hh.symm
      simpa [dispatchOutcomes, List.lookup, hne] using ih

/-- Witness for C8: three subscriptions; the second environment makes
subscription 2's endpoint always return 500 while the first returns 200
everywhere — subscription 1's recorded outcome is unchanged. -/
theorem delivery_isolation_witness :
    (dispatchOutcomes (fun _ _ => 200) 3 [1, 2, 3]).lookup 1 =
      (dispatchOutcomes (fun sid _ => if sid == 2 then 500 else 200) 3 [1, 2, 3]).lookup 1 :=
  delivery_isolation (fun _ _ => 200) (fun sid _ => if sid == 2 then 500 else 200)
    3 [1, 2, 3] 1 (funext fun _ => rfl)

/-! ## Kanaal viewset (src/nrc/api/viewsets.py lines 62-95, C9) -/

/-- The actions `KanaalViewSet` exposes: it mixes in only CreateModelMixin,
ListModelMixin and RetrieveModelMixin (src/nrc/api/viewsets.py lines 62-68),
so the channel API offers no update, partial_update or destroy action. -/
inductive KanaalAction where
  | create : Kanaal → KanaalAction
  | listAll : KanaalAction
  | retrieve : String → KanaalAction
deriving Repr

/-- Effect of each available `KanaalViewSet` action on the stored channel
records: `create` appends a new record; `list` and `retrieve` are reads. -/
def applyKanaalAction (ks : List Kanaal) : KanaalAction → List Kanaal
  | .create k => ks ++ [k]
  | .listAll => ks
  | .retrieve _ => ks

theorem foldl_kanaal_append (ks : List Kanaal) (acts : List KanaalAction) :
    ∃ tail, acts.foldl applyKanaalAction ks = ks ++ tail := by
  induction acts generalizing ks with
  | nil => exact ⟨[], by simp⟩
  | cons a l ih =>
    cases a with
    | create k =>
      obtain ⟨t, ht⟩ := ih (ks ++ [k])
      exact ⟨[k] ++ t, by simp [applyKanaalAction, ht]⟩
    | listAll => simpa [applyKanaalAction] using ih ks
    | retrieve s => simpa [applyKanaalAction] using ih ks

/-- C9: across every sequence of actions available on the channel API, every
channel record present beforehand is still present and unmodified afterwards —
the viewset exposes no action at all that changes or removes a channel, so in
particular no API operation other than an owner-initiated mutation can, and a
channel referenced by subscriptions is never deleted. -/
theorem kanaal_immutable (ks : List Kanaal) (acts : List KanaalAction) :
    (acts.foldl applyKanaalAction ks).take ks.length = ks ∧
    ∀ k ∈ ks, k ∈ acts.foldl applyKanaalAction ks := by
  obtain ⟨tail, ht⟩ := foldl_kanaal_append ks acts
  rw [ht]
  exact ⟨List.take_left ks tail, fun k hk => List.mem_append_left _ hk⟩

/-! ## The two notification publish handlers (C10)

`NotificatieAPIView.post` / `.create` in `src/nrc/api/viewsets.py` (lines
116-129) and `NotificatieViewSet.create` in
`src/notifications/api/viewsets.py` (lines 72-82).  Both construct a
`MessageSerializer` on the request data; the serializer itself is not among
the visible sources, so its verdict is abstracted as a `validate` function
from the request body to either validated data or errors. -/

/-- The observable outcome of a publish handler: HTTP status, response body
(validated data on success, serializer errors on failure), and whether
`serializer.save()` was invoked. -/
structure HandlerOutcome where
  status : Nat
  body : Except String String
  saved : Bool
deriving Repr

namespace NotificatieAPIView

/-- `NotificatieAPIView.post` (src/nrc/api/viewsets.py lines 119-129): if the
serializer validates the request data, save and return 201 with the validated
data; otherwise return 400 with the serializer's errors. -/
def post (validate : String → Except String String) (requestData : String) :
    HandlerOutcome :=
  match validate requestData with
  | .ok data => ⟨201, .ok data, true⟩
  | .error errs => ⟨400, .error errs, false⟩

/-- `NotificatieAPIView.create` (lines 116-117) forwards to `post`. -/
def create (validate : String → Except String String) (requestData : String) :
    HandlerOutcome :=
  post validate requestData

end NotificatieAPIView

namespace NotificatieViewSet

/-- `NotificatieViewSet.create` (src/notifications/api/viewsets.py lines
72-82): if the serializer validates the request data, save and return 201
with the validated data; otherwise return 400 with the serializer's errors. -/
def create (validate : String → Except String String) (requestData : String) :
    HandlerOutcome :=
  match validate requestData with
  | .ok data => ⟨201, .ok data, true⟩
  | .error errs => ⟨400, .error errs, false⟩

end NotificatieViewSet

/-- C10: the nrc publish handler (`post`, also reached via `create`) and the
notifications publish handler implement the same input-output behavior: on a
body the serializer validates they save and return 201 with the validated
data, otherwise they return 400 with the serializer's errors and do not
save. -/
theorem publish_handlers_equivalent (validate : String → Except String String)
    (requestData : String) :
    NotificatieAPIView.post validate requestData =
      NotificatieViewSet.create validate requestData ∧
    NotificatieAPIView.create validate requestData =
      NotificatieViewSet.create validate requestData ∧
    (∀ data, validate requestData = .ok data →
      NotificatieAPIView.post validate requestData = ⟨201, .ok data, true⟩) ∧
    (∀ errs, validate requestData = .error errs →
      NotificatieAPIView.post validate requestData = ⟨400, .error errs, false⟩) := by
  refine ⟨?_, ?_, ?_, ?_⟩
  · cases h : validate requestData <;>
      simp [NotificatieAPIView.post, NotificatieViewSet.create, h]
  · cases h : validate requestData <;>
      simp [NotificatieAPIView.post, NotificatieAPIView.create,
        NotificatieViewSet.create, h]
  · intro data h
    simp [NotificatieAPIView.post, h]
  · intro errs h
    simp [NotificatieAPIView.post, h]

end NRC
